import Mathlib

/-!
Shallow embedding of `src/app.py` (hospital patient management app).

The program keeps its state in `st.session_state.patients_db`, a Python
dict mapping a (normalized) phone-number string to a patient dict with
keys `hospital_id, name, age, gender, phone, address`.  We model that
dict as an insertion-ordered association list `DB` whose keys are unique
in every reachable store (Python dict semantics): assignment replaces
the entry in place when the key is present and appends otherwise, `del`
removes the entry for the key, lookup returns the entry stored at the
key.

Strings are Lean `String`s; all string computation is done on the
underlying character lists so that every definition reduces in the
kernel.  Python's `\d` in the phone regex is modelled over the ASCII
decimal digits (`Char.isDigit`); Python's `str.strip()` is modelled as
removing leading and trailing whitespace characters.
-/

/-- The patient record, from the `Patient` dataclass / `to_dict` shape
(`src/app.py` lines 71-90): six fields, `hospital_id` generated by the
system, the others supplied by the forms. -/
structure Patient where
  hospital_id : String
  name : String
  age : Nat
  gender : String
  phone : String
  address : String
deriving DecidableEq

/-- State `st.session_state.patients_db`: a Python dict from phone-number
key to patient record, modelled as an insertion-ordered association list. -/
abbrev DB : Type := List (String × Patient)

/-- Python `db.get(k)`: the value stored at key `k`, if any
(first occurrence; keys are unique in every reachable store). -/
def dbGet : DB → String → Option Patient
  | [], _ => none
  | kv :: t, k => if kv.1 = k then some kv.2 else dbGet t k

/-- Python `db[k] = v`: replace the entry in place when the key is
present, append otherwise. -/
def dbSet : DB → String → Patient → DB
  | [], k, v => [(k, v)]
  | kv :: t, k, v => if kv.1 = k then (k, v) :: t else kv :: dbSet t k v

/-- Python `del db[k]`: remove the entry stored at key `k`.  The only
`del` in the program is the one inside the update form's re-key block
(`src/app.py` line 309), which is dead code (see `update_submit`); the
operation is modelled for completeness. -/
def dbDel : DB → String → DB
  | [], _ => []
  | kv :: t, k => if kv.1 = k then dbDel t k else kv :: dbDel t k

/-- Python `len(db)`, used by `PatientDatabase.get_total_patients`
(`src/app.py` lines 130-132). -/
def dbCount (db : DB) : Nat := List.length db

/-- Python `s.replace(c, '')` for a single-character pattern: delete every
occurrence of `c` (for a one-character pattern and empty replacement,
Python `str.replace` is exactly this filter). -/
def pyReplaceDel (s : String) (c : Char) : String :=
  String.mk (List.filter (fun x => x ≠ c) s.data)

/-- Python `s.strip()`: drop leading and trailing whitespace (modelled
over the whitespace characters recognised by `Char.isWhitespace`). -/
def pyStrip (s : String) : String :=
  String.mk
    (List.reverse (List.dropWhile Char.isWhitespace
      (List.reverse (List.dropWhile Char.isWhitespace s.data))))

/-- Phone normalization `phone.replace('-', '').replace(' ', '')`, as used
in `validate_phone` (line 138), registration (line 186, `clean_phone`),
lookup (line 241, `clean_search`) and update (line 300). -/
def clean_phone (s : String) : String :=
  pyReplaceDel (pyReplaceDel s '-') ' '

/-- Python `re.match(r'^\d{10}$', s)` as a Boolean: `re.match` anchors at
position 0, `\d{10}` consumes ten decimal digits, and `$` (without
`re.MULTILINE`) matches at the end of the string or just before a
newline that ends the string.  So the regex accepts exactly the strings
of ten digits and the strings of ten digits followed by one `'\n'`. -/
def pyMatchTenDigits (l : List Char) : Bool :=
  List.length l ≥ 10 &&
  List.all (List.take 10 l) Char.isDigit &&
  (List.length l = 10 || (List.length l = 11 && List.getD l 10 ' ' = '\n'))

/-- Function `validate_phone` (`src/app.py` lines 134-138): strip `'-'`
and `' '`, then test `re.match(r'^\d{10}$', ·)`. -/
def validate_phone (phone : String) : Bool :=
  pyMatchTenDigits (clean_phone phone).data

/-- Function `generate_hospital_id` (`src/app.py` lines 140-142):
`f"HSP-{str(uuid.uuid4())[:8].upper()}"`.  The random UUID string drawn
by `uuid.uuid4()` is passed in explicitly as the oracle `u`. -/
def generate_hospital_id (u : String) : String :=
  "HSP-" ++ String.mk (List.map Char.toUpper (List.take 8 u.data))

/-- Method `PatientDatabase.save_patient` (`src/app.py` lines 99-106):
`patients_db[patient.phone] = patient.to_dict()` (the `try` never fails
in-memory, so the method returns `True`). -/
def save_patient (db : DB) (patient : Patient) : DB :=
  dbSet db patient.phone patient

/-- Method `PatientDatabase.get_patient_by_phone` (`src/app.py` lines
108-110): `patients_db.get(phone)` — an exact dictionary-key lookup, no
normalization of the argument. -/
def get_patient_by_phone (db : DB) (phone : String) : Option Patient :=
  dbGet db phone

/-- Method `PatientDatabase.get_patient_by_id` (`src/app.py` lines
112-117): linear scan over `patients_db.values()` in insertion order,
returning the first record whose `hospital_id` matches. -/
def get_patient_by_id : DB → String → Option Patient
  | [], _ => none
  | kv :: t, hid => if kv.2.hospital_id = hid then some kv.2 else get_patient_by_id t hid

/-- The five mutable fields written by the update form
(`updated_data` at `src/app.py` lines 296-302). -/
structure UpdData where
  name : String
  age : Nat
  gender : String
  phone : String
  address : String
deriving DecidableEq

/-- Python `dict.update` of `updated_data` into a stored record: the five
mutable fields are replaced, `hospital_id` is untouched. -/
def mergeUpd (p : Patient) (u : UpdData) : Patient :=
  ⟨p.hospital_id, u.name, u.age, u.gender, u.phone, u.address⟩

/-- Method `PatientDatabase.update_patient` (`src/app.py` lines 119-128):
if the key is present, merge `updated_data` into the stored record in
place and return `True`; otherwise return `False`, store unchanged. -/
def update_patient (db : DB) (phone : String) (u : UpdData) : Bool × DB :=
  match dbGet db phone with
  | some p => (true, dbSet db phone (mergeUpd p u))
  | none => (false, db)

/-- Input of the registration form (`src/app.py` lines 149-159): `name`,
`phone`, `address` are free-text widgets, `gender` is a selectbox over
`["", "Male", "Female", "Other"]`, and `age` comes from
`st.number_input("Age *", min_value=0, max_value=150, value=0)`,
which only ever yields an integer in `[0, 150]`. -/
structure RegInput where
  name : String
  age : Nat
  gender : String
  phone : String
  address : String
deriving DecidableEq

/-- The age widget constraint: `st.number_input(min_value=0, max_value=150)`
(registration line 154, update lines 261-262) admits exactly the integers
`0 ≤ age ≤ 150`; with `age : Nat` the lower bound is automatic. -/
def age_widget_admits (age : Nat) : Bool :=
  age ≤ 150

/-- The validation block of the registration form (`src/app.py` lines
164-177): every check runs, each failing check appends its message. -/
def regErrors (i : RegInput) : List String :=
  (if pyStrip i.name = "" then ["Name is required"] else []) ++
  (if i.age ≤ 0 then ["Valid age is required"] else []) ++
  (if i.gender = "" then ["Gender selection is required"] else []) ++
  (if pyStrip i.phone = "" then ["Phone number is required"]
   else if !validate_phone i.phone then ["Please enter a valid 10-digit phone number"]
   else []) ++
  (if pyStrip i.address = "" then ["Address is required"] else [])

/-- Outcome of a submitted registration. -/
inductive RegResult where
  | validationErrors (msgs : List String)
  | duplicate
  | registered (hospital_id : String)
deriving DecidableEq

/-- The submit branch of `render_patient_registration` (`src/app.py` lines
163-215): validate; on errors stop before any store access; otherwise
normalize the phone, reject a duplicate key, else build the `Patient`
(with `hospital_id = generate_hospital_id`, drawing the UUID oracle `u`)
and `save_patient` it.  Returns the outcome and the store after. -/
def register_submit (db : DB) (i : RegInput) (u : String) : RegResult × DB :=
  if regErrors i ≠ [] then (RegResult.validationErrors (regErrors i), db)
  else
    let cp := clean_phone i.phone
    match get_patient_by_phone db cp with
    | some _ => (RegResult.duplicate, db)
    | none =>
      let hid := generate_hospital_id u
      let patient : Patient := ⟨hid, pyStrip i.name, i.age, i.gender, cp, pyStrip i.address⟩
      (RegResult.registered hid, save_patient db patient)

/-- Outcome of a submitted by-phone search. -/
inductive LookupResult where
  | invalidPhone
  | notFound
  | found (p : Patient)
deriving DecidableEq

/-- The "Phone Number" search branch of `render_patient_lookup`
(`src/app.py` lines 240-245 and 249/315): normalize, validate — an
invalid format stops with the error message before the store is touched —
then `get_patient_by_phone` on the normalized value. -/
def lookup_by_phone (db : DB) (search_value : String) : LookupResult :=
  let cs := clean_phone search_value
  if !validate_phone cs then LookupResult.invalidPhone
  else
    match get_patient_by_phone db cs with
    | some p => LookupResult.found p
    | none => LookupResult.notFound

/-- Input of the update form (`src/app.py` lines 256-268): same fields as
registration, but the gender selectbox has no empty option and the age
widget is the same `min_value=0, max_value=150` number input. -/
structure UpdInput where
  name : String
  age : Nat
  gender : String
  phone : String
  address : String
deriving DecidableEq

/-- The validation block of the update form (`src/app.py` lines 277-288):
as at registration but with no gender check. -/
def updErrors (i : UpdInput) : List String :=
  (if pyStrip i.name = "" then ["Name is required"] else []) ++
  (if i.age ≤ 0 then ["Valid age is required"] else []) ++
  (if pyStrip i.phone = "" then ["Phone number is required"]
   else if !validate_phone i.phone then ["Please enter a valid 10-digit phone number"]
   else []) ++
  (if pyStrip i.address = "" then ["Address is required"] else [])

/-- Outcome of a submitted update.  There is only one success outcome:
the re-key branch of the source can never run (see `update_submit`). -/
inductive UpdateResult where
  | validationErrors (msgs : List String)
  | storeMiss
  | updated
deriving DecidableEq

/-- The submit branch of the update form (`src/app.py` lines 276-314):
validate; on errors stop.  Otherwise build `updated_data` (lines
296-302) and call `update_patient` keyed by `patient_data['phone']`
(line 304; the argument is read before the call, so the old key is
used).

The re-key block at lines 306-311 is dead code.  `patient_data` is not a
snapshot: it is the stored dict itself, by reference (`get_patient_by_phone`
returns `patients_db.get(phone)`, line 110, and `get_patient_by_id`
returns an element of `patients_db.values()`, lines 114-116), and
`update_patient` has just merged `updated_data` into that very object
(line 123).  Hence at line 307 `patient_data['phone']` already equals
`updated_data['phone']`, the comparison `updated_data['phone'] !=
patient_data['phone']` is always false, and the `del`-and-reinsert block
(lines 309-311) never executes: a successful update always merges in
place at the old key, whatever the edited phone is. -/
def update_submit (db : DB) (patient_data : Patient) (i : UpdInput) : UpdateResult × DB :=
  if updErrors i ≠ [] then (UpdateResult.validationErrors (updErrors i), db)
  else
    let updated : UpdData :=
      ⟨pyStrip i.name, i.age, i.gender, clean_phone i.phone, pyStrip i.address⟩
    match update_patient db patient_data.phone updated with
    | (true, db1) => (UpdateResult.updated, db1)
    | (false, db1) => (UpdateResult.storeMiss, db1)

/-- Spec wording for the phone rule ("the stripped result is exactly 10
decimal digits"), for comparison with `validate_phone`. -/
def isTenDigits (s : String) : Bool :=
  List.length s.data = 10 && List.all s.data Char.isDigit

/-- Strings of ten decimal digits followed by a single trailing newline:
the extra language admitted by Python's `$` in `re.match(r'^\d{10}$', ·)`. -/
def isTenDigitsNewline (s : String) : Bool :=
  List.length s.data = 11 &&
  List.all (List.take 10 s.data) Char.isDigit &&
  List.getD s.data 10 ' ' = '\n'

/-- The store entry a successful registration creates for input `x`
(form input paired with the UUID oracle): the normalized phone as key,
and as value the `Patient` built at `src/app.py` lines 193-201. -/
def regEntry (x : RegInput × String) : String × Patient :=
  (clean_phone x.1.phone,
   ⟨generate_hospital_id x.2, pyStrip x.1.name, x.1.age, x.1.gender,
     clean_phone x.1.phone, pyStrip x.1.address⟩)

/-- A sequence of registration submissions, each drawing its own UUID
oracle, folded over the store. -/
def register_all : DB → List (RegInput × String) → DB
  | db, [] => db
  | db, x :: rest => register_all (register_submit db x.1 x.2).2 rest

/- ### Concrete sample data used by witnesses and counterexamples -/

/-- Sample record for the C1 failing input. -/
def c1_rec : Patient := ⟨"HSP-12345678", "Jane Doe", 34, "Female", "5550001111", "1 Main St"⟩

/-- Sample store for the C1 failing input. -/
def c1_db : DB := [("5550001111", c1_rec)]

/-- Sample update input for the C1 failing input: phone edited to a new
number, so the spec demands a re-key. -/
def c1_upd : UpdInput := ⟨"Jane Doe", 34, "Female", "555-999-8888", "1 Main St"⟩

/-- Pre-registered record for the C3 witness. -/
def c3_jane : Patient := ⟨"HSP-12345678", "Jane Doe", 34, "Female", "5550001111", "1 Main St"⟩

/-- Store for the C3 witness, already holding `c3_jane`. -/
def c3_db : DB := [("5550001111", c3_jane)]

/-- Registration input for the C3 witness whose phone normalizes to the
key already present in `c3_db`. -/
def c3_input : RegInput := ⟨"John Roe", 40, "Male", "555-000-1111", "2 Side St"⟩

/-- Two valid registrations with distinct phones (and UUID oracles) for
the C4 witness. -/
def c4_xs : List (RegInput × String) :=
  [(⟨"Jane Doe", 34, "Female", "555-000-1111", "1 Main St"⟩, "abc123de"),
   (⟨"John Roe", 40, "Male", "5559998888", "2 Side St"⟩, "0f0f0f0f")]

/-- Registration input for C7 with every field but the age valid. -/
def c7_reg_input (a : Nat) : RegInput :=
  ⟨"Jane Doe", a, "Female", "5551234567", "1 Main St"⟩

/-- Update input for C7 with every field but the age valid. -/
def c7_upd_input (a : Nat) : UpdInput :=
  ⟨"Jane Doe", a, "Female", "5551234567", "1 Main St"⟩

/-- Registration input for the C8 witness: invalid phone `"12345"`,
every other field valid. -/
def c8_input : RegInput := ⟨"Jane Doe", 34, "Female", "12345", "1 Main St"⟩

/-- Stored record for the C10 witness. -/
def c10_pat : Patient := ⟨"HSP-12345678", "Jane Doe", 34, "Female", "5551234567", "1 Main St"⟩

/-- Store for the C10 witness, keyed by the normalized phone. -/
def c10_db : DB := [("5551234567", c10_pat)]

/- ### Dictionary lemmas -/

theorem dbGet_dbSet_self (db : DB) (k : String) (v : Patient) :
    dbGet (dbSet db k v) k = some v := by
  induction db with
  | nil => simp [dbGet, dbSet]
  | cons kv t ih =>
    by_cases h : kv.1 = k
    · simp [dbGet, dbSet, h]
    · simp [dbGet, dbSet, h, ih]

theorem dbSet_of_absent (db : DB) (k : String) (v : Patient)
    (h : dbGet db k = none) : dbSet db k v = db ++ [(k, v)] := by
  induction db with
  | nil => rfl
  | cons kv t ih =>
    by_cases hk : kv.1 = k
    · simp [dbGet, hk] at h
    · simp only [dbGet, if_neg hk] at h
      simp [dbSet, hk, ih h]

theorem dbGet_append_single (db : DB) (k0 k : String) (v0 : Patient)
    (h : dbGet db k = none) (hne : k0 ≠ k) :
    dbGet (db ++ [(k0, v0)]) k = none := by
  induction db with
  | nil => simp [dbGet, hne]
  | cons kv t ih =>
    by_cases hk : kv.1 = k
    · simp [dbGet, hk] at h
    · simp only [dbGet, if_neg hk] at h
      simpa [dbGet, hk] using ih h

theorem dbGet_of_mem_pairwise (db : DB) (e : String × Patient)
    (hmem : e ∈ db) (hnd : List.Pairwise (fun a b => a.1 ≠ b.1) db) :
    dbGet db e.1 = some e.2 := by
  induction db with
  | nil => cases hmem
  | cons kv t ih =>
    rcases List.mem_cons.mp hmem with he | he
    · subst he; simp [dbGet]
    · have hne : kv.1 ≠ e.1 := (List.pairwise_cons.mp hnd).1 e he
      simp only [dbGet, if_neg hne]
      exact ih he (List.pairwise_cons.mp hnd).2

theorem get_by_id_of_mem_pairwise (db : DB) (e : String × Patient)
    (hmem : e ∈ db)
    (hnd : List.Pairwise (fun a b => a.2.hospital_id ≠ b.2.hospital_id) db) :
    get_patient_by_id db e.2.hospital_id = some e.2 := by
  induction db with
  | nil => cases hmem
  | cons kv t ih =>
    rcases List.mem_cons.mp hmem with he | he
    · subst he; simp [get_patient_by_id]
    · have hne : kv.2.hospital_id ≠ e.2.hospital_id :=
        (List.pairwise_cons.mp hnd).1 e he
      simp only [get_patient_by_id, if_neg hne]
      exact ih he (List.pairwise_cons.mp hnd).2

/- ### String-layer lemmas -/

theorem clean_phone_idem (s : String) :
    clean_phone (clean_phone s) = clean_phone s := by
  unfold clean_phone pyReplaceDel
  congr 1
  simp only [List.filter_filter]
  apply List.filter_congr
  intro x _
  by_cases h1 : x = '-' <;> by_cases h2 : x = ' ' <;> simp [h1, h2]

theorem validate_phone_clean (s : String) :
    validate_phone (clean_phone s) = validate_phone s := by
  unfold validate_phone
  rw [clean_phone_idem]

theorem pyMatch_iff (l : List Char) :
    pyMatchTenDigits l = true ↔
      ((List.length l = 10 ∧ List.all l Char.isDigit = true) ∨
       (List.length l = 11 ∧ List.all (List.take 10 l) Char.isDigit = true ∧
        List.getD l 10 ' ' = '\n')) := by
  by_cases h10 : List.length l = 10
  · simp [pyMatchTenDigits, h10, List.take_of_length_le (le_of_eq h10)]
  · by_cases h11 : List.length l = 11
    · simp [pyMatchTenDigits, h10, h11]
    · simp [pyMatchTenDigits, h10, h11]

/- ### Registration-sequence lemmas -/

theorem register_submit_fresh (db : DB) (x : RegInput × String)
    (hv : regErrors x.1 = [])
    (hf : dbGet db (clean_phone x.1.phone) = none) :
    (register_submit db x.1 x.2).2 = db ++ [regEntry x] := by
  simp only [register_submit, hv, ne_eq, not_true_eq_false, if_false,
    get_patient_by_phone, hf, save_patient, regEntry]
  exact dbSet_of_absent _ _ _ hf

theorem register_all_eq (xs : List (RegInput × String)) (db : DB)
    (hv : ∀ x ∈ xs, regErrors x.1 = [])
    (hfresh : ∀ x ∈ xs, dbGet db (clean_phone x.1.phone) = none)
    (hdist : List.Pairwise (fun a b => clean_phone a.1.phone ≠ clean_phone b.1.phone) xs) :
    register_all db xs = db ++ List.map regEntry xs := by
  induction xs generalizing db with
  | nil => simp [register_all]
  | cons x rest ih =>
    have hx : regErrors x.1 = [] := hv x (List.mem_cons_self x rest)
    have hfx : dbGet db (clean_phone x.1.phone) = none :=
      hfresh x (List.mem_cons_self x rest)
    have hstep := register_submit_fresh db x hx hfx
    have hrest : ∀ y ∈ rest, dbGet (db ++ [regEntry x]) (clean_phone y.1.phone) = none := by
      intro y hy
      exact dbGet_append_single _ _ _ _
        (hfresh y (List.mem_cons_of_mem x hy))
        ((List.pairwise_cons.mp hdist).1 y hy)
    show register_all (register_submit db x.1 x.2).2 rest = _
    rw [hstep, ih (db ++ [regEntry x])
      (fun y hy => hv y (List.mem_cons_of_mem x hy)) hrest
      (List.pairwise_cons.mp hdist).2]
    simp

/- ### Claims -/

/-- Claim C1 is violated by the code (code bug): the re-key block of the
update form (`src/app.py` lines 306-311) is dead code, because
`patient_data` aliases the stored dict that `update_patient` mutates in
place, so the comparison at line 307 always compares the new phone with
itself.  At the concrete failing input — Jane stored under
`"5550001111"`, a valid update editing the phone to `"555-999-8888"` —
the update reports success, yet the record stays under the old key (with
the new phone in its field and the hospital id unchanged), and the
lookup of the new key `"5559998888"` finds nothing, contrary to the
claim's `findByPhone(oldPhone) = NotFound` and `findByPhone(newPhone) =
the updated record`. -/
theorem c1_update_does_not_rekey :
    updErrors c1_upd = [] ∧
    clean_phone c1_upd.phone = "5559998888" ∧
    clean_phone c1_upd.phone ≠ c1_rec.phone ∧
    (update_submit c1_db c1_rec c1_upd).1 = UpdateResult.updated ∧
    get_patient_by_phone (update_submit c1_db c1_rec c1_upd).2 c1_rec.phone =
      some ⟨"HSP-12345678", "Jane Doe", 34, "Female", "5559998888", "1 Main St"⟩ ∧
    get_patient_by_phone (update_submit c1_db c1_rec c1_upd).2 "5559998888" = none := by
  decide

/-- Claim C3: registering an input whose normalized phone already keys a
record fails with the duplicate-key outcome, creates nothing, and leaves
`count()` unchanged (the store is returned untouched). -/
theorem c3_register_duplicate (db : DB) (i : RegInput) (u : String) (p : Patient)
    (hval : regErrors i = [])
    (hdup : get_patient_by_phone db (clean_phone i.phone) = some p) :
    (register_submit db i u).1 = RegResult.duplicate ∧
    (register_submit db i u).2 = db ∧
    dbCount (register_submit db i u).2 = dbCount db := by
  have h : register_submit db i u = (RegResult.duplicate, db) := by
    simp [register_submit, hval, hdup]
  rw [h]
  exact ⟨rfl, rfl, rfl⟩

/-- Witness for C3: re-registering `"555-000-1111"` over a store already
holding the key `"5550001111"` is refused as a duplicate. -/
theorem c3_register_duplicate_witness :
    (regErrors c3_input = [] ∧
     get_patient_by_phone c3_db (clean_phone c3_input.phone) = some c3_jane) ∧
    ((register_submit c3_db c3_input "cafe0123").1 = RegResult.duplicate ∧
     (register_submit c3_db c3_input "cafe0123").2 = c3_db ∧
     dbCount (register_submit c3_db c3_input "cafe0123").2 = dbCount c3_db) :=
  ⟨⟨by decide, by decide⟩,
   c3_register_duplicate c3_db c3_input "cafe0123" c3_jane (by decide) (by decide)⟩

/-- Claim C4: starting from the empty store (a fresh session), a sequence
of field-valid registrations with pairwise-distinct normalized phones
(and pairwise-distinct generated hospital ids — `uuid4` collisions are
assumed away, matching the spec's "unique with overwhelming probability")
increases `count()` by exactly 1 at every step, and afterwards every
registered record is retrievable both by its normalized phone and by its
generated hospital id. -/
theorem c4_register_sequence (xs : List (RegInput × String))
    (hv : ∀ x ∈ xs, regErrors x.1 = [])
    (hphones : List.Pairwise (fun a b => clean_phone a.1.phone ≠ clean_phone b.1.phone) xs)
    (hids : List.Pairwise (fun a b => generate_hospital_id a.2 ≠ generate_hospital_id b.2) xs) :
    (∀ n < List.length xs,
       dbCount (register_all [] (List.take (n + 1) xs)) =
         dbCount (register_all [] (List.take n xs)) + 1) ∧
    (∀ x ∈ xs,
       get_patient_by_phone (register_all [] xs) (clean_phone x.1.phone) =
         some (regEntry x).2 ∧
       get_patient_by_id (register_all [] xs) (generate_hospital_id x.2) =
         some (regEntry x).2) := by
  have htake : ∀ m : Nat,
      register_all [] (List.take m xs) = List.map regEntry (List.take m xs) := by
    intro m
    have h := register_all_eq (List.take m xs) []
      (fun y hy => hv y (List.mem_of_mem_take hy))
      (fun y _ => rfl)
      (List.Pairwise.sublist (List.take_sublist m xs) hphones)
    simpa using h
  have hall : register_all [] xs = List.map regEntry xs := by
    have h := register_all_eq xs [] hv (fun y _ => rfl) hphones
    simpa using h
  constructor
  · intro n hn
    rw [htake (n + 1), htake n]
    unfold dbCount
    rw [List.length_map, List.length_map, List.length_take, List.length_take]
    omega
  · intro x hx
    rw [hall]
    constructor
    · show dbGet _ _ = _
      exact dbGet_of_mem_pairwise (List.map regEntry xs) (regEntry x)
        (List.mem_map_of_mem regEntry hx)
        (by rw [List.pairwise_map]; exact hphones)
    · exact get_by_id_of_mem_pairwise (List.map regEntry xs) (regEntry x)
        (List.mem_map_of_mem regEntry hx)
        (by rw [List.pairwise_map]; exact hids)

/-- Witness for C4 on a concrete two-registration sequence. -/
theorem c4_register_sequence_witness :
    ((∀ x ∈ c4_xs, regErrors x.1 = []) ∧
     List.Pairwise (fun a b => clean_phone a.1.phone ≠ clean_phone b.1.phone) c4_xs ∧
     List.Pairwise (fun a b => generate_hospital_id a.2 ≠ generate_hospital_id b.2) c4_xs) ∧
    ((∀ n < List.length c4_xs,
        dbCount (register_all [] (List.take (n + 1) c4_xs)) =
          dbCount (register_all [] (List.take n c4_xs)) + 1) ∧
     (∀ x ∈ c4_xs,
        get_patient_by_phone (register_all [] c4_xs) (clean_phone x.1.phone) =
          some (regEntry x).2 ∧
        get_patient_by_id (register_all [] c4_xs) (generate_hospital_id x.2) =
          some (regEntry x).2)) :=
  ⟨⟨by decide, by decide, by decide⟩,
   c4_register_sequence c4_xs (by decide) (by decide) (by decide)⟩

/-- Counterexample to claim C5 as stated: `"0123456789\n"` is accepted by
`validate_phone` although its stripped form is not exactly ten decimal
digits — Python's `$` also matches just before a trailing newline. -/
theorem c5_validate_phone_counterexample :
    validate_phone "0123456789\n" = true ∧
    isTenDigits (clean_phone "0123456789\n") = false := by
  decide

/-- Claim C5, amended: phone validation strips all `'-'` and `' '`
characters and accepts exactly the inputs whose stripped result is ten
decimal digits, or ten decimal digits followed by a single trailing
newline (the extra case Python's `re.match(r'^\d{10}$', ·)` admits);
every other input is rejected. -/
theorem c5_validate_phone_amended (s : String) :
    validate_phone s = true ↔
      (isTenDigits (clean_phone s) = true ∨ isTenDigitsNewline (clean_phone s) = true) := by
  unfold validate_phone
  rw [pyMatch_iff]
  unfold isTenDigits isTenDigitsNewline
  simp only [Bool.and_eq_true, decide_eq_true_eq]
  tauto

/-- Claim C6: phone normalization is idempotent, and the three spec
examples `"555-123-4567"`, `"555 123 4567"`, `"5551234567"` normalize to
the same key. -/
theorem c6_normalize_idempotent :
    (∀ p : String, clean_phone (clean_phone p) = clean_phone p) ∧
    clean_phone "555-123-4567" = clean_phone "555 123 4567" ∧
    clean_phone "555 123 4567" = clean_phone "5551234567" :=
  ⟨clean_phone_idem, by decide, by decide⟩

/-- Claim C7: with all other fields valid, the age gate of the
registration form and of the update form — the `min_value=0,
max_value=150` number-input widget combined with the `age <= 0`
validation check — accepts exactly the integers 1 through 150: 0 is
rejected by the check, 151 cannot be submitted through the widget. -/
theorem c7_age_boundary :
    (∀ a : Nat,
       (age_widget_admits a = true ∧ regErrors (c7_reg_input a) = []) ↔
         (1 ≤ a ∧ a ≤ 150)) ∧
    (∀ a : Nat,
       (age_widget_admits a = true ∧ updErrors (c7_upd_input a) = []) ↔
         (1 ≤ a ∧ a ≤ 150)) := by
  have e1 : ¬(pyStrip "Jane Doe" = "") := by decide
  have e3 : ¬(pyStrip "5551234567" = "") := by decide
  have e4 : validate_phone "5551234567" = true := by decide
  have e5 : ¬(pyStrip "1 Main St" = "") := by decide
  constructor
  · intro a
    have e2 : ¬(("Female" : String) = "") := by decide
    simp only [age_widget_admits, decide_eq_true_eq, regErrors, c7_reg_input,
      e1, e2, e3, e4, e5, if_false, Bool.not_true, if_neg]
    rcases Nat.eq_zero_or_pos a with h | h
    · subst h; simp
    · have hnot : ¬(a ≤ 0) := by omega
      simp only [hnot, if_false]
      constructor
      · rintro ⟨hw, -⟩; exact ⟨h, hw⟩
      · rintro ⟨-, hw⟩; exact ⟨hw, rfl⟩
  · intro a
    simp only [age_widget_admits, decide_eq_true_eq, updErrors, c7_upd_input,
      e1, e3, e4, e5, if_false, Bool.not_true, if_neg]
    rcases Nat.eq_zero_or_pos a with h | h
    · subst h; simp
    · have hnot : ¬(a ≤ 0) := by omega
      simp only [hnot, if_false]
      constructor
      · rintro ⟨hw, -⟩; exact ⟨h, hw⟩
      · rintro ⟨-, hw⟩; exact ⟨hw, rfl⟩

/-- Counterexample to claim C8 as stated: the normalized form of
`"0123456789\n"` is not exactly ten decimal digits, yet the by-phone
lookup does not fail with the invalid-phone error — it consults the
store and reports not-found.  Also, the claim's example
`"555-12-34567"` does not belong to the class it illustrates: it
normalizes to the ten digits `"5551234567"` and is accepted. -/
theorem c8_invalid_phone_counterexample :
    isTenDigits (clean_phone "0123456789\n") = false ∧
    lookup_by_phone [] "0123456789\n" = LookupResult.notFound ∧
    validate_phone "555-12-34567" = true := by
  decide

/-- Claim C8, amended: for every non-blank input `validate_phone`
rejects (its normalized form is neither ten digits nor ten digits plus a
trailing newline; e.g. `"12345"`, `"abcdefghij"`), the by-phone lookup
returns the invalid-phone outcome on every store, and registration with
that phone returns the validation errors — which include the
invalid-phone message — and the untouched store, whatever the store is:
neither flow reads or writes the store. -/
theorem c8_invalid_phone_short_circuit (s : String) (i : RegInput) (u : String)
    (hphone : i.phone = s)
    (hnb : pyStrip s ≠ "")
    (hinv : validate_phone s = false) :
    (∀ db : DB, lookup_by_phone db s = LookupResult.invalidPhone) ∧
    (∀ db : DB, register_submit db i u = (RegResult.validationErrors (regErrors i), db)) ∧
    "Please enter a valid 10-digit phone number" ∈ regErrors i := by
  subst hphone
  have hlv : validate_phone (clean_phone i.phone) = false := by
    rw [validate_phone_clean]; exact hinv
  have hmem : "Please enter a valid 10-digit phone number" ∈ regErrors i := by
    simp [regErrors, hnb, hinv]
  have hne : regErrors i ≠ [] := List.ne_nil_of_mem hmem
  refine ⟨?_, ?_, hmem⟩
  · intro db
    simp [lookup_by_phone, hlv]
  · intro db
    simp [register_submit, hne]

/-- Witness for C8 at the spec's example input `"12345"`. -/
theorem c8_invalid_phone_short_circuit_witness :
    (c8_input.phone = "12345" ∧ pyStrip "12345" ≠ "" ∧ validate_phone "12345" = false) ∧
    ((∀ db : DB, lookup_by_phone db "12345" = LookupResult.invalidPhone) ∧
     (∀ db : DB, register_submit db c8_input "cafe0123" =
        (RegResult.validationErrors (regErrors c8_input), db)) ∧
     "Please enter a valid 10-digit phone number" ∈ regErrors c8_input) :=
  ⟨⟨by decide, by decide, by decide⟩,
   c8_invalid_phone_short_circuit "12345" c8_input "cafe0123" (by decide) (by decide) (by decide)⟩

/-- Claim C9: registration validation is not fail-fast — for every
submitted input, the returned list contains a field's message exactly
when that field is invalid or missing (name, age, gender, phone — with
the required/invalid split the code makes — and address), and it
contains nothing else.  Determinism is inherent: `regErrors` is a
function of the input. -/
theorem c9_registration_errors_complete (i : RegInput) :
    ("Name is required" ∈ regErrors i ↔ pyStrip i.name = "") ∧
    ("Valid age is required" ∈ regErrors i ↔ i.age ≤ 0) ∧
    ("Gender selection is required" ∈ regErrors i ↔ i.gender = "") ∧
    ("Phone number is required" ∈ regErrors i ↔ pyStrip i.phone = "") ∧
    ("Please enter a valid 10-digit phone number" ∈ regErrors i ↔
       (pyStrip i.phone ≠ "" ∧ validate_phone i.phone = false)) ∧
    ("Address is required" ∈ regErrors i ↔ pyStrip i.address = "") ∧
    (∀ m ∈ regErrors i,
       m = "Name is required" ∨ m = "Valid age is required" ∨
       m = "Gender selection is required" ∨ m = "Phone number is required" ∨
       m = "Please enter a valid 10-digit phone number" ∨ m = "Address is required") := by
  by_cases h1 : pyStrip i.name = "" <;>
    by_cases h2 : i.age ≤ 0 <;>
    by_cases h3 : i.gender = "" <;>
    by_cases h4 : pyStrip i.phone = "" <;>
    by_cases h5 : validate_phone i.phone = true <;>
    by_cases h6 : pyStrip i.address = "" <;>
    simp_all [regErrors]

/-- Claim C10: the store-level phone lookup is an exact key match with no
normalization — on any store whose keys are normalized (no space or
hyphen, true of every reachable store), looking up a string that still
contains a space or hyphen returns not-found, even when the record for
the corresponding normalized phone is present. -/
theorem c10_get_by_phone_exact (db : DB) (s : String) (r : Patient)
    (hkeys : ∀ kv ∈ db, ∀ c ∈ kv.1.data, ¬(c = '-' ∨ c = ' '))
    (hraw : ∃ c ∈ s.data, c = '-' ∨ c = ' ')
    (_hnorm : dbGet db (clean_phone s) = some r) :
    get_patient_by_phone db s = none := by
  have hgen : ∀ db' : DB, (∀ kv ∈ db', ∀ c ∈ kv.1.data, ¬(c = '-' ∨ c = ' ')) →
      dbGet db' s = none := by
    intro db' hk
    induction db' with
    | nil => rfl
    | cons kv t ih =>
      have hne : kv.1 ≠ s := by
        intro he
        obtain ⟨c, hc, hcd⟩ := hraw
        exact hk kv (List.mem_cons_self kv t) c (by rw [he]; exact hc) hcd
      simp only [dbGet, if_neg hne]
      exact ih (fun kv2 hm => hk kv2 (List.mem_cons_of_mem kv hm))
  exact hgen db hkeys

/-- Witness for C10: the store holds the record under `"5551234567"`, and
looking up the un-normalized `"555-123-4567"` finds nothing. -/
theorem c10_get_by_phone_exact_witness :
    ((∀ kv ∈ c10_db, ∀ c ∈ kv.1.data, ¬(c = '-' ∨ c = ' ')) ∧
     (∃ c ∈ ("555-123-4567" : String).data, c = '-' ∨ c = ' ') ∧
     dbGet c10_db (clean_phone "555-123-4567") = some c10_pat) ∧
    get_patient_by_phone c10_db "555-123-4567" = none :=
  ⟨⟨by decide, by decide, by decide⟩,
   c10_get_by_phone_exact c10_db "555-123-4567" c10_pat (by decide) (by decide) (by decide)⟩
